import Mathlib

/-!
Verification of the matcher combinators of googletest-rust: the success/failure
adapter (`ok`, `ok_matcher.rs`), the dereferencing adapter (`points_to`,
`points_to_matcher.rs`) and the infinitude matcher (`is_infinite`,
`is_infinite_matcher.rs`), against the natural-language specification.
The `Matcher` trait, the `MatcherResult` enum and the `Description` type live in
`matcher.rs` and `description.rs`, which are not part of the source tree under
verification; they are modelled from the specification as noted on each
definition.
-/

namespace GoogletestRust

/-- Modelled from the spec: `MatcherResult` is the two-valued outcome
`Match | NoMatch` with no third state (spec section 3); the enum itself is
declared in `matcher.rs`, outside the verified sources. -/
inductive MatcherResult where
  | Match
  | NoMatch
deriving DecidableEq, Repr

/-- Modelled from the spec: the `impl From<bool> for MatcherResult` conversion
used by `actual.is_infinite().into()`; `true` converts to `Match` and `false`
to `NoMatch`, as required for the infinitude matcher to accept infinities. -/
def MatcherResult.ofBool : Bool → MatcherResult
  | true => .Match
  | false => .NoMatch

/-- Modelled from the spec: a `Description` is an ordered tree of text lines
where nesting increases indentation by a fixed unit of 2 spaces per level and
rendering is pure and deterministic (spec sections 3 and 6); the type itself is
declared in `description.rs`, outside the verified sources. We represent a
description by the list of its text lines, each paired with its nesting
level. -/
structure Description where
  entries : List (Nat × String)
deriving DecidableEq, Repr

/-- `Description::new()`: the empty description. -/
def Description.new : Description := ⟨[]⟩

/-- `Description::text(s)`: appends one line of text at the current level. -/
def Description.text (d : Description) (s : String) : Description :=
  ⟨d.entries ++ [(0, s)]⟩

/-- `Description::nested(inner)`: appends the inner description one nesting
level deeper. -/
def Description.nested (d inner : Description) : Description :=
  ⟨d.entries ++ inner.entries.map (fun p => (p.1 + 1, p.2))⟩

/-- Modelled from the spec: the `From<&str>` / `From<String>` conversion into
`Description` producing a single line, used by `"which is an error".into()`
and by the `format!(...).into()` calls in `describe`. -/
def Description.ofStr (s : String) : Description := ⟨[(0, s)]⟩

/-- The indentation prefix for a nesting level: 2 spaces per level. -/
def Description.indentPrefix : Nat → String
  | 0 => ""
  | n + 1 => "  " ++ Description.indentPrefix n

/-- The rendered lines of a description, each prefixed by its indentation. -/
def Description.lines (d : Description) : List String :=
  d.entries.map (fun p => Description.indentPrefix p.1 ++ p.2)

/-- The rendered text of a description: its indented lines joined by
newlines (the `Display` implementation). -/
def Description.render (d : Description) : String :=
  String.intercalate "\n" d.lines

/-- Modelled from the spec: the matcher contract (spec sections 4.1 and 6):
`matches`, `explain_match` and `describe`; the `Matcher` trait is declared in
`matcher.rs`, outside the verified sources. A matcher over a value type is the
record of its three operations. -/
structure Matcher (T : Type) where
  matches' : T → MatcherResult
  explain_match : T → Description
  describe : MatcherResult → Description

/-- Rust `std::result::Result<T, E>` with its two variants. -/
inductive Result (T E : Type) where
  | Ok (v : T)
  | Err (e : E)
deriving DecidableEq, Repr

/-- Rust `Result::map`: applies `f` to the `Ok` value, passes `Err` through. -/
def Result.map {T E U : Type} (r : Result T E) (f : T → U) : Result U E :=
  match r with
  | .Ok v => .Ok (f v)
  | .Err e => .Err e

/-- Rust `Result::unwrap_or`: the `Ok` value, or the default on `Err`. -/
def Result.unwrap_or {T E : Type} (r : Result T E) (d : T) : T :=
  match r with
  | .Ok v => v
  | .Err _ => d

/-- Rust `Result::as_ref`: converts `&Result<T, E>` to `Result<&T, &E>`;
references are erased in the embedding, so it maps each variant to itself. -/
def Result.as_ref {T E : Type} (r : Result T E) : Result T E :=
  match r with
  | .Ok v => .Ok v
  | .Err e => .Err e

/-- The `OkMatcher` struct of `ok_matcher.rs`: holds the inner matcher. -/
structure OkMatcher (InnerMatcherT : Type) where
  inner : InnerMatcherT

/-- The `ok` constructor function of `ok_matcher.rs` lines 41-43. -/
def ok {InnerMatcherT : Type} (inner : InnerMatcherT) : OkMatcher InnerMatcherT :=
  { inner }

/-- The by-value `impl Matcher<Result<T, E>> for OkMatcher`, `ok_matcher.rs`
lines 50-80: `matches` is `actual.map(|v| inner.matches(v)).unwrap_or(NoMatch)`;
`explain_match` nests the inner explanation under "which is a success" on `Ok`
and is the fixed line "which is an error" on `Err`; `describe` prefixes the
rendered inner description with the fixed phrases. -/
def OkMatcher.toMatcher {T E : Type} (m : OkMatcher (Matcher T)) :
    Matcher (Result T E) where
  matches' actual := (actual.map (fun v => m.inner.matches' v)).unwrap_or .NoMatch
  explain_match actual :=
    match actual with
    | .Ok o => (Description.new.text "which is a success").nested (m.inner.explain_match o)
    | .Err _ => Description.ofStr "which is an error"
  describe matcher_result :=
    match matcher_result with
    | .Match => Description.ofStr
        ("is a success containing a value, which " ++ (m.inner.describe .Match).render)
    | .NoMatch => Description.ofStr
        ("is an error or a success containing a value, which " ++ (m.inner.describe .NoMatch).render)

/-- The by-reference `impl Matcher<&Result<T, E>> for OkMatcher`,
`ok_matcher.rs` lines 82-112: identical to the by-value implementation except
that `matches` goes through `actual.as_ref()` and the inner matcher works on
references (erased in the embedding). -/
def OkMatcher.toMatcherRef {T E : Type} (m : OkMatcher (Matcher T)) :
    Matcher (Result T E) where
  matches' actual := ((actual.as_ref).map (fun v => m.inner.matches' v)).unwrap_or .NoMatch
  explain_match actual :=
    match actual with
    | .Ok o => (Description.new.text "which is a success").nested (m.inner.explain_match o)
    | .Err _ => Description.ofStr "which is an error"
  describe matcher_result :=
    match matcher_result with
    | .Match => Description.ofStr
        ("is a success containing a value, which " ++ (m.inner.describe .Match).render)
    | .NoMatch => Description.ofStr
        ("is an error or a success containing a value, which " ++ (m.inner.describe .NoMatch).render)

/-- The `PointsToMatcher` struct of `points_to_matcher.rs`: holds the inner
matcher for the dereferenced value. -/
structure PointsToMatcher (MatcherT : Type) where
  expected : MatcherT

/-- The `points_to` constructor function of `points_to_matcher.rs` lines 30-37. -/
def points_to {MatcherT : Type} (expected : MatcherT) : PointsToMatcher MatcherT :=
  { expected }

/-- The `impl Matcher<ActualT> for PointsToMatcher`, `points_to_matcher.rs`
lines 43-60: all three operations delegate unchanged to the inner matcher
applied to the dereferenced value. The `Deref` capability of `ActualT` is
embedded as an explicit dereference function. -/
def PointsToMatcher.toMatcher {ExpectedT ActualT : Type}
    (m : PointsToMatcher (Matcher ExpectedT)) (deref : ActualT → ExpectedT) :
    Matcher ActualT where
  matches' actual := m.expected.matches' (deref actual)
  explain_match actual := m.expected.explain_match (deref actual)
  describe matcher_result := m.expected.describe matcher_result

/-- An IEEE floating-point value, embedded by its classification: a finite
value (carried as a rational, which contains every finite float), positive
infinity, negative infinity, or NaN. The width index distinguishes the
single-precision (`FpValue 32`, Rust `f32`) and double-precision
(`FpValue 64`, Rust `f64`) instantiations of the generic matcher. -/
inductive FpValue (width : Nat) where
  | finite (x : Rat)
  | posInf
  | negInf
  | nan
deriving DecidableEq

/-- Rust `num_traits::float::Float::is_infinite`: true exactly on the two
infinities; false on every finite value and on NaN (IEEE 754 semantics). -/
def FpValue.is_infinite {w : Nat} : FpValue w → Bool
  | .posInf => true
  | .negInf => true
  | .finite _ => false
  | .nan => false

/-- The `IsInfiniteMatcher` unit struct of `is_infinite_matcher.rs`. -/
structure IsInfiniteMatcher where

/-- The `is_infinite` constructor function of `is_infinite_matcher.rs`
lines 23-25. -/
def is_infinite : IsInfiniteMatcher := {}

/-- `IsInfiniteMatcher::matches`, `is_infinite_matcher.rs` lines 31-33:
`actual.is_infinite().into()`. -/
def IsInfiniteMatcher.matches' {w : Nat} (_m : IsInfiniteMatcher)
    (actual : FpValue w) : MatcherResult :=
  MatcherResult.ofBool actual.is_infinite

/-- A sample concrete inner matcher, mirroring the `eq(1)` matcher used by the
tests in `ok_matcher.rs` (its exact wording is outside the verified scope; it
serves only as a concrete instantiation for witnesses and examples). -/
def sample_eq_one : Matcher Int where
  matches' v := MatcherResult.ofBool (v == 1)
  explain_match v :=
    Description.ofStr (if v == 1 then "which is equal to 1" else "which is not equal to 1")
  describe r :=
    match r with
    | .Match => Description.ofStr "is equal to 1"
    | .NoMatch => Description.ofStr "is not equal to 1"

/-- Rendering a single-line description yields exactly that line. -/
theorem Description.render_ofStr (s : String) : (Description.ofStr s).render = s := rfl

/-- The rendered lines of a text line with a nested description: the line
itself, followed by the nested lines each indented by one extra unit of two
spaces. -/
theorem Description.lines_text_nested (s : String) (inner : Description) :
    ((Description.new.text s).nested inner).lines =
      s :: inner.lines.map (fun t => "  " ++ t) := by
  simp only [Description.lines, Description.nested, Description.new, Description.text,
    List.nil_append, List.cons_append, List.map_cons, List.map_append, List.map_map,
    Description.indentPrefix]
  rw [List.cons_eq_cons]
  refine ⟨rfl, ?_⟩
  induction inner.entries with
  | nil => rfl
  | cons p ps ih =>
    simp only [List.map_cons, Function.comp_apply, ih, List.cons.injEq, and_true]
    exact (String.append_assoc "  " (Description.indentPrefix p.1) p.2)

/-- Every `MatcherResult` is `Match` or `NoMatch`. -/
theorem MatcherResult.eq_match_or_eq_noMatch (m : MatcherResult) :
    m = MatcherResult.Match ∨ m = MatcherResult.NoMatch := by
  cases m
  · exact Or.inl rfl
  · exact Or.inr rfl

/-- C1: for every inner matcher M and every value v, the success/failure
adapter satisfies ok(M).matches(Ok(v)) == M.matches(v), and for every error
value e, ok(M).matches(Err(e)) == NoMatch. -/
theorem ok_matches_delegation {T E : Type} (M : Matcher T) (v : T) (e : E) :
    ((ok M).toMatcher.matches' (.Ok v : Result T E) = M.matches' v) ∧
    ((ok M).toMatcher.matches' (.Err e : Result T E) = MatcherResult.NoMatch) :=
  ⟨rfl, rfl⟩

/-- C2: applying the success/failure adapter to the failure variant is not an
error: it is a well-defined `NoMatch`, and its explanation is exactly the
fixed line "which is an error", independent of the inner matcher and of the
error value (both are universally quantified). -/
theorem ok_err_fixed_explanation {T E : Type} (M : Matcher T) (e : E) :
    ((ok M).toMatcher.matches' (.Err e : Result T E) = MatcherResult.NoMatch) ∧
    ((ok M).toMatcher.explain_match (.Err e : Result T E) =
      Description.ofStr "which is an error") ∧
    (((ok M).toMatcher.explain_match (.Err e : Result T E)).render = "which is an error") :=
  ⟨rfl, rfl, rfl⟩

/-- C3: for every inner matcher M, the adapter's describe(Match) renders as
"is a success containing a value, which " followed by M.describe(Match), and
describe(NoMatch) renders as "is an error or a success containing a value,
which " followed by M.describe(NoMatch). -/
theorem ok_describe_rendering {T E : Type} (M : Matcher T) :
    ((((ok M).toMatcher (E := E)).describe .Match).render =
      "is a success containing a value, which " ++ (M.describe .Match).render) ∧
    ((((ok M).toMatcher (E := E)).describe .NoMatch).render =
      "is an error or a success containing a value, which " ++ (M.describe .NoMatch).render) :=
  ⟨rfl, rfl⟩

/-- C4: for every inner matcher M and value v, the adapter's explain_match on
Ok(v) is the line "which is a success" with M's explanation nested exactly one
indentation level below it (2 spaces per level); concretely, with the sample
eq(1) inner matcher on Ok(1) it renders as
"which is a success\n  which is equal to 1". -/
theorem ok_explain_match_nested {T E : Type} (M : Matcher T) (v : T) :
    ((((ok M).toMatcher (E := E)).explain_match (.Ok v)).lines =
      "which is a success" :: (M.explain_match v).lines.map (fun t => "  " ++ t)) ∧
    ((((ok sample_eq_one).toMatcher (E := Int)).explain_match (.Ok 1)).render =
      "which is a success\n  which is equal to 1") :=
  ⟨Description.lines_text_nested "which is a success" (M.explain_match v), rfl⟩

/-- C5: the dereferencing adapter is a pure forwarding wrapper: matches,
explain_match and describe all delegate unchanged to the inner matcher applied
to the dereferenced value, for both match results. -/
theorem points_to_forwarding {X A : Type} (M : Matcher X) (deref : A → X)
    (o : A) (r : MatcherResult) :
    (((points_to M).toMatcher deref).matches' o = M.matches' (deref o)) ∧
    (((points_to M).toMatcher deref).explain_match o = M.explain_match (deref o)) ∧
    (((points_to M).toMatcher deref).describe r = M.describe r) :=
  ⟨rfl, rfl, rfl⟩

/-- C6: the infinitude matcher returns Match on positive and negative infinity
and NoMatch on 0.0, for both single-precision (width 32) and double-precision
(width 64) values. -/
theorem is_infinite_matches_infinities :
    (is_infinite.matches' (.posInf : FpValue 32) = MatcherResult.Match) ∧
    (is_infinite.matches' (.negInf : FpValue 32) = MatcherResult.Match) ∧
    (is_infinite.matches' (.finite 0 : FpValue 32) = MatcherResult.NoMatch) ∧
    (is_infinite.matches' (.posInf : FpValue 64) = MatcherResult.Match) ∧
    (is_infinite.matches' (.negInf : FpValue 64) = MatcherResult.Match) ∧
    (is_infinite.matches' (.finite 0 : FpValue 64) = MatcherResult.NoMatch) :=
  ⟨rfl, rfl, rfl, rfl, rfl, rfl⟩

/-- C7: matches is deterministic for every matcher defined in this code: two
invocations on equal inputs yield equal MatchResults (a two-run statement over
the embedded functions for the infinitude matcher, the success/failure adapter
and the dereferencing adapter). -/
theorem matches_deterministic {T E X A : Type} {w : Nat}
    (M : Matcher T) (N : Matcher X) (deref : A → X)
    (a b : FpValue w) (r s : Result T E) (o p : A)
    (hab : a = b) (hrs : r = s) (hop : o = p) :
    (is_infinite.matches' a = is_infinite.matches' b) ∧
    ((ok M).toMatcher.matches' r = (ok M).toMatcher.matches' s) ∧
    (((points_to N).toMatcher deref).matches' o =
      ((points_to N).toMatcher deref).matches' p) := by
  subst hab
  subst hrs
  subst hop
  exact ⟨rfl, rfl, rfl⟩

/-- Witness for C7 at concrete inputs. -/
theorem matches_deterministic_witness :
    (is_infinite.matches' (.posInf : FpValue 32) =
      is_infinite.matches' (.posInf : FpValue 32)) ∧
    ((ok sample_eq_one).toMatcher.matches' (.Ok 1 : Result Int Int) =
      (ok sample_eq_one).toMatcher.matches' (.Ok 1 : Result Int Int)) ∧
    (((points_to sample_eq_one).toMatcher id).matches' (5 : Int) =
      ((points_to sample_eq_one).toMatcher id).matches' (5 : Int)) :=
  matches_deterministic sample_eq_one sample_eq_one id
    FpValue.posInf FpValue.posInf (.Ok 1) (.Ok 1) 5 5 rfl rfl rfl

/-- C8: the matching path is total and two-valued: for every well-typed input,
matches of each matcher in this code returns either Match or NoMatch (the
embedded functions are total, so no third state, panic or error outcome
exists; the wrong-shape case resolves to NoMatch by C2). -/
theorem matches_total_two_valued {T E X A : Type} {w : Nat}
    (M : Matcher T) (N : Matcher X) (deref : A → X)
    (a : FpValue w) (r : Result T E) (o : A) :
    (is_infinite.matches' a = MatcherResult.Match ∨
      is_infinite.matches' a = MatcherResult.NoMatch) ∧
    ((ok M).toMatcher.matches' r = MatcherResult.Match ∨
      (ok M).toMatcher.matches' r = MatcherResult.NoMatch) ∧
    (((points_to N).toMatcher deref).matches' o = MatcherResult.Match ∨
      ((points_to N).toMatcher deref).matches' o = MatcherResult.NoMatch) :=
  ⟨MatcherResult.eq_match_or_eq_noMatch _, MatcherResult.eq_match_or_eq_noMatch _,
    MatcherResult.eq_match_or_eq_noMatch _⟩

/-- C9: the infinitude matcher returns NoMatch on NaN, for both
single-precision and double-precision values. -/
theorem is_infinite_rejects_nan :
    (is_infinite.matches' (.nan : FpValue 32) = MatcherResult.NoMatch) ∧
    (is_infinite.matches' (.nan : FpValue 64) = MatcherResult.NoMatch) :=
  ⟨rfl, rfl⟩

/-- C10: the by-value and by-reference implementations of the success/failure
adapter are behaviorally equivalent: for every Result value and inner matchers
that agree on values and references, matches, explain_match and describe
produce equal results. -/
theorem ok_by_value_by_ref_equiv {T E : Type} (M N : Matcher T)
    (hm : ∀ v : T, M.matches' v = N.matches' v)
    (he : ∀ v : T, M.explain_match v = N.explain_match v)
    (hd : ∀ r : MatcherResult, M.describe r = N.describe r)
    (r : Result T E) (res : MatcherResult) :
    ((ok M).toMatcher.matches' r = (ok N).toMatcherRef.matches' r) ∧
    ((ok M).toMatcher.explain_match r = (ok N).toMatcherRef.explain_match r) ∧
    (((ok M).toMatcher (E := E)).describe res =
      ((ok N).toMatcherRef (E := E)).describe res) := by
  refine ⟨?_, ?_, ?_⟩
  · cases r with
    | Ok v =>
      simpa [OkMatcher.toMatcher, OkMatcher.toMatcherRef, ok, Result.map,
        Result.as_ref, Result.unwrap_or] using hm v
    | Err e => rfl
  · cases r with
    | Ok v =>
      simp [OkMatcher.toMatcher, OkMatcher.toMatcherRef, ok, he v]
    | Err e => rfl
  · cases res with
    | Match => simp [OkMatcher.toMatcher, OkMatcher.toMatcherRef, ok, hd]
    | NoMatch => simp [OkMatcher.toMatcher, OkMatcher.toMatcherRef, ok, hd]

/-- Witness for C10 at the sample inner matcher and concrete inputs. -/
theorem ok_by_value_by_ref_equiv_witness :
    ((ok sample_eq_one).toMatcher.matches' (.Ok 1 : Result Int Int) =
      (ok sample_eq_one).toMatcherRef.matches' (.Ok 1 : Result Int Int)) ∧
    ((ok sample_eq_one).toMatcher.explain_match (.Ok 1 : Result Int Int) =
      (ok sample_eq_one).toMatcherRef.explain_match (.Ok 1 : Result Int Int)) ∧
    (((ok sample_eq_one).toMatcher (T := Int) (E := Int)).describe MatcherResult.Match =
      ((ok sample_eq_one).toMatcherRef (T := Int) (E := Int)).describe MatcherResult.Match) :=
  ok_by_value_by_ref_equiv sample_eq_one sample_eq_one
    (fun _ => rfl) (fun _ => rfl) (fun _ => rfl) (.Ok 1) MatcherResult.Match

end GoogletestRust
